import Mathlib

/-!
Verification development for the telegram movie-catalog bot
(src/bot.py and src/movies_bot.py).

The Python handlers are shallowly embedded as executable Lean functions:
the filename normalizer (the two regex passes of bot.add_movie), the
per-user upload-session store and commit logic of bot.add_movie, the
search/suggestion engine of bot.search_movie / bot.suggest_movies, the
message sweep of movies_bot.MovieBot.clear_search_group, and (modelled
from the spec, since src/ has no rate limiter) the sliding-window rate
limiter of spec §4.2.
-/

namespace MovieBot

/-! ### Character and string utilities

Python regex semantics for the ASCII fragment used by the bot:
`\s` (Python whitespace), case-insensitive literal matching
(`re.IGNORECASE`, ASCII case folding), and `str.strip`. -/

/-- Python regex `\s` on ASCII: space, tab, newline, carriage return,
vertical tab, form feed. -/
def isPyWs (c : Char) : Bool :=
  c = ' ' || c = '\t' || c = '\n' || c = '\r' || c = '\x0b' || c = '\x0c'

/-- ASCII lower-casing, as used by `re.IGNORECASE` on ASCII input. -/
def lowerAscii (c : Char) : Char :=
  if 'A' ≤ c ∧ c ≤ 'Z' then Char.ofNat (c.toNat + 32) else c

/-- Case-insensitive character equality (ASCII). -/
def ciEq (a b : Char) : Bool := lowerAscii a = lowerAscii b

/-- Match the literal `pat` case-insensitively at the head of `s`;
return the remainder on success. -/
def matchLitCI : List Char → List Char → Option (List Char)
  | [], s => some s
  | _ :: _, [] => none
  | p :: ps, c :: cs => if ciEq p c then matchLitCI ps cs else none

/-- Does `pat` occur (case-insensitively) at the head of `s`? -/
def headMatchCI (pat s : List Char) : Bool := (matchLitCI pat s).isSome

/-- Case-insensitive substring occurrence test. -/
def containsCIList (pat : List Char) : List Char → Bool
  | [] => headMatchCI pat []
  | c :: cs => headMatchCI pat (c :: cs) || containsCIList pat cs

/-- Case-insensitive substring test on strings: does `hay` contain `pat`?
This is the semantics both of `re.search(re.compile(re.escape(pat), re.IGNORECASE), hay)`
(bot.search_movie) and of an anchored-nowhere `$regex: ".*pat.*", $options: "i"`
query on a literal `pat` (bot.suggest_movies). -/
def containsCI (hay pat : String) : Bool := containsCIList pat.data hay.data

/-- Python `str.strip()` (whitespace trim on both ends, ASCII). -/
def stripPy (s : List Char) : List Char :=
  ((s.dropWhile isPyWs).reverse.dropWhile isPyWs).reverse

/-! ### The cleaning pass of bot.add_movie (bot.py:116-117)

`re.sub(pattern, '', filename, flags=re.IGNORECASE)` with
`pattern = (?i)(?:\[.*?\]\s*|\s*-?\s*(HDRip|10bit|x264|AAC|\d{3,4}MB|AMZN|WEB-DL|WEBRip|HEVC|x265|ESub|HQ|\.mkv|\.mp4|\.avi|\.mov|BluRay|DVDRip|720p|1080p|540p|SD|HD|CAM|DVDScr|R5|TS|Rip|BRRip|AC3|DualAudio|6CH))`
followed by `.strip()`.

`re.sub` scans left to right, replacing each leftmost non-overlapping
match by the empty string; both alternatives always consume at least one
character. Alternation is leftmost-first, `\d{3,4}` is greedy, `.`
does not match a newline, and no release token starts with whitespace
or a dash, which makes the `\s*-?\s*` prefix deterministic. -/

/-- Release-token alternatives tried before the `\d{3,4}MB` alternative,
in the pattern's order. -/
def tokensBeforeMB : List (List Char) :=
  [['H','D','R','i','p'], ['1','0','b','i','t'], ['x','2','6','4'], ['A','A','C']]

/-- Release-token alternatives tried after the `\d{3,4}MB` alternative,
in the pattern's order. -/
def tokensAfterMB : List (List Char) :=
  [ ['A','M','Z','N'], ['W','E','B','-','D','L'], ['W','E','B','R','i','p'],
    ['H','E','V','C'], ['x','2','6','5'], ['E','S','u','b'], ['H','Q'],
    ['.','m','k','v'], ['.','m','p','4'], ['.','a','v','i'], ['.','m','o','v'],
    ['B','l','u','R','a','y'], ['D','V','D','R','i','p'],
    ['7','2','0','p'], ['1','0','8','0','p'], ['5','4','0','p'],
    ['S','D'], ['H','D'], ['C','A','M'], ['D','V','D','S','c','r'],
    ['R','5'], ['T','S'], ['R','i','p'], ['B','R','R','i','p'],
    ['A','C','3'], ['D','u','a','l','A','u','d','i','o'], ['6','C','H'] ]

/-- Try a list of literal alternatives in order at the head of `s`. -/
def matchFirstLit : List (List Char) → List Char → Option (List Char)
  | [], _ => none
  | t :: ts, s =>
    match matchLitCI t s with
    | some r => some r
    | none => matchFirstLit ts s

/-- Greedy `\d{3,4}MB`: four digits then `MB` (case-insensitive),
else three digits then `MB`. -/
def matchMB (s : List Char) : Option (List Char) :=
  match s with
  | d1 :: d2 :: d3 :: d4 :: rest =>
    if d1.isDigit ∧ d2.isDigit ∧ d3.isDigit then
      if d4.isDigit then
        match matchLitCI ['M','B'] rest with
        | some r => some r
        | none => matchLitCI ['M','B'] (d4 :: rest)
      else matchLitCI ['M','B'] (d4 :: rest)
    else none
  | _ => none

/-- One release token at the head of `s`, trying alternatives in the
pattern's order; returns the remainder. -/
def matchToken (s : List Char) : Option (List Char) :=
  match matchFirstLit tokensBeforeMB s with
  | some r => some r
  | none =>
    match matchMB s with
    | some r => some r
    | none => matchFirstLit tokensAfterMB s

/-- The `\s*-?\s*⟨token⟩` alternative at the head of `s`. Since no token
starts with whitespace or `-`, backtracking inside the prefix cannot move
the position at which the token is tried. -/
def matchWsDashToken (s : List Char) : Option (List Char) :=
  match s.dropWhile isPyWs with
  | '-' :: rest => matchToken (rest.dropWhile isPyWs)
  | other => matchToken other

/-- The body of the lazy `\[.*?\]` : scan to the first `]`, failing on a
newline (`.` does not match newlines). Returns the remainder after `]`. -/
def scanBracketBody : List Char → Option (List Char)
  | [] => none
  | ']' :: r => some r
  | '\n' :: _ => none
  | _ :: r => scanBracketBody r

/-- The `\[.*?\]\s*` alternative at the head of `s`. -/
def matchBracketGroup (s : List Char) : Option (List Char) :=
  match s with
  | '[' :: rest => (scanBracketBody rest).map (fun r => r.dropWhile isPyWs)
  | _ => none

/-- The `re.sub` scan: at each position try the bracket alternative, then
the `\s*-?\s*⟨token⟩` alternative; on a match drop it, otherwise keep the
character. Every match consumes at least one character, so fuel equal to
the input length reproduces `re.sub` exactly. -/
def subScan : Nat → List Char → List Char
  | 0, s => s
  | _ + 1, [] => []
  | fuel + 1, c :: rest =>
    match matchBracketGroup (c :: rest) with
    | some r => subScan fuel r
    | none =>
      match matchWsDashToken (c :: rest) with
      | some r => subScan fuel r
      | none => c :: subScan fuel rest

/-- bot.py:116-117: strip release tags from a filename and `.strip()` it. -/
def cleanFilename (s : String) : String :=
  String.mk (stripPy (subScan s.data.length s.data))

/-! ### The extraction pass of bot.add_movie (bot.py:121-123)

`re.search(r'^(.*?)(\(?\d{4}\)?)?(.*?Malayalam|Hindi|Tamil|Telugu|English)?$', cleaned, re.IGNORECASE)`
followed by `' '.join(part.strip() for part in match.groups() if part)`.

Backtracking order: group 1 is lazy (smallest prefix first); group 2
prefers to be present, `\(?`/`\)?` are greedy; group 3 tries its five
alternatives left to right and absence last; `$` matches at the end of
the string or just before a trailing newline. `.` never matches a
newline. If the search fails (possible only when the input contains an
interior newline) the cleaned name is left unchanged. -/

/-- `$` with the remainder of the string as argument. -/
def atDollar : List Char → Bool
  | [] => true
  | ['\n'] => true
  | _ => false

/-- Take exactly four digits. -/
def takeFourDigits (s : List Char) : Option (List Char × List Char) :=
  match s with
  | d1 :: d2 :: d3 :: d4 :: rest =>
    if d1.isDigit ∧ d2.isDigit ∧ d3.isDigit ∧ d4.isDigit then
      some ([d1, d2, d3, d4], rest)
    else none
  | _ => none

/-- Parses of `(\(?\d{4}\)?)` at the head of `s`, as (capture, remainder)
pairs in backtracking order. The opening paren branch is deterministic
(a digit cannot be `(`); the closing paren gives two branches. -/
def g2Parses (s : List Char) : List (List Char × List Char) :=
  let (opened, s1) : Bool × List Char :=
    match s with
    | '(' :: r => (true, r)
    | _ => (false, s)
  match takeFourDigits s1 with
  | none => []
  | some (ds, s2) =>
    let cap := (if opened then ['('] else []) ++ ds
    match s2 with
    | ')' :: r => [(cap ++ [')'], r), (cap, s2)]
    | _ => [(cap, s2)]

/-- The `.*?Malayalam` alternative followed by `$`: find the least split
point where `Malayalam` matches (case-insensitively) with `$` directly
after it; the lazy prefix cannot cross a newline. Returns the capture. -/
def scanMalayalam (acc : List Char) : List Char → Option (List Char)
  | [] => none
  | c :: rest =>
    match matchLitCI ['M','a','l','a','y','a','l','a','m'] (c :: rest) with
    | some r =>
      if atDollar r then
        some (acc.reverse ++ (c :: rest).take 9)
      else if c = '\n' then none
      else scanMalayalam (c :: acc) rest
    | none =>
      if c = '\n' then none
      else scanMalayalam (c :: acc) rest

/-- One literal language alternative followed by `$`. -/
def langLit (lit : List Char) (s : List Char) : Option (List Char) :=
  match matchLitCI lit s with
  | some r => if atDollar r then some (s.take lit.length) else none
  | none => none

/-- `(.*?Malayalam|Hindi|Tamil|Telugu|English)?$` at the head of `s`:
`some (some cap)` when an alternative matches with `$` after it,
`some none` when the group is absent and `$` holds, `none` otherwise. -/
def g3Match (s : List Char) : Option (Option (List Char)) :=
  match scanMalayalam [] s with
  | some cap => some (some cap)
  | none =>
    match langLit ['H','i','n','d','i'] s with
    | some cap => some (some cap)
    | none =>
      match langLit ['T','a','m','i','l'] s with
      | some cap => some (some cap)
      | none =>
        match langLit ['T','e','l','u','g','u'] s with
        | some cap => some (some cap)
        | none =>
          match langLit ['E','n','g','l','i','s','h'] s with
          | some cap => some (some cap)
          | none => if atDollar s then some none else none

/-- Match `(\(?\d{4}\)?)?(...)?$` at the head of `rest` with `g1` already
fixed, in backtracking order: group 2 present (both paren branches), then
absent. -/
def tryTail (g1 rest : List Char) :
    Option (List Char × Option (List Char) × Option (List Char)) :=
  match (g2Parses rest).findSome?
      (fun p => (g3Match p.2).map (fun g3 => (g1, some p.1, g3))) with
  | some g => some g
  | none => (g3Match rest).map (fun g3 => (g1, none, g3))

/-- The lazy search loop: grow group 1 one character at a time (it cannot
cross a newline), returning the first full match's captures. -/
def searchLoop (g1rev : List Char) :
    List Char → Option (List Char × Option (List Char) × Option (List Char))
  | [] =>
    tryTail g1rev.reverse []
  | c :: rest =>
    match tryTail g1rev.reverse (c :: rest) with
    | some g => some g
    | none => if c = '\n' then none else searchLoop (c :: g1rev) rest

/-- `' '.join(part.strip() for part in match.groups() if part)`:
filter out absent and empty captures, strip each, join with spaces. -/
def joinGroups (g : List Char × Option (List Char) × Option (List Char)) :
    List Char :=
  let parts := [some g.1, g.2.1, g.2.2].filterMap (fun p =>
    match p with
    | some l => if l.isEmpty then none else some (stripPy l)
    | none => none)
  (parts.intersperse [' ']).flatten

/-- bot.py:121-123: extract title / year / language from the cleaned
name; if the anchored search fails the input is returned unchanged. -/
def extractTitleYearLang (s : String) : String :=
  match searchLoop [] s.data with
  | some g => String.mk (joinGroups g)
  | none => s

/-- The whole filename normalization of bot.add_movie (bot.py:113-123):
tag-stripping pass then title/year/language extraction. -/
def normalizeFilename (s : String) : String :=
  extractTitleYearLang (cleanFilename s)

/-! ### Upload sessions and the commit logic of bot.add_movie (bot.py:95-207)

`upload_sessions` is a per-user dict of sessions `{'files': [...],
'image': ..., 'caption': ...}`. `add_movie` mutates the caller's session
and, when the session holds at least one file and an image, builds a
`movie_entry` and inserts it into the Movies collection inside a
`try`; the success reply (bot.py:161) and, for an image without a
file_id, the search-group text notification (bot.py:193) are unprotected
inside that `try`, while the search-group photo preview (bot.py:183-191)
has its own inner `try/except`; `del upload_sessions[user_id]`
(bot.py:200) runs last inside the `try`. -/

structure FileDoc where
  file_id : String
  file_name : String
deriving DecidableEq, Repr

structure ImageInfo where
  file_id : String
  width : Nat
  height : Nat
deriving DecidableEq, Repr

/-- One element of `update.message.photo`. -/
structure PhotoSize where
  file_id : String
  width : Nat
  height : Nat
deriving DecidableEq, Repr

/-- An upload session. `caption` distinguishes a missing `'caption'` key
(`none` — `setdefault` at bot.py:107 creates sessions without one) from a
key stored as Python `None` (`some none`). -/
structure Session where
  files : List FileDoc
  image : Option ImageInfo
  caption : Option (Option String)
deriving DecidableEq, Repr

/-- The default `{"files": [], "image": None}` of bot.py:107. -/
def freshSession : Session := ⟨[], none, none⟩

/-- A committed catalog entry (`movie_entry`, bot.py:150-157). `movie_id`
models the `uuid4` value by a generation counter; `image` keeps the
optional shape of the session field it is copied from. -/
structure MovieEntry where
  movie_id : Nat
  name : String
  documents : List FileDoc
  image : Option ImageInfo
deriving DecidableEq, Repr

/-- The mutable state touched by bot.add_movie: `upload_sessions`, the
Movies collection (insertion order kept), and the id generator. -/
structure BotState where
  sessions : List (Nat × Session)
  store : List MovieEntry
  nextId : Nat
deriving DecidableEq, Repr

def initState : BotState := ⟨[], [], 0⟩

def getSession : List (Nat × Session) → Nat → Option Session
  | [], _ => none
  | (k, v) :: rest, uid => if k = uid then some v else getSession rest uid

def setSession : List (Nat × Session) → Nat → Session → List (Nat × Session)
  | [], uid, s => [(uid, s)]
  | (k, v) :: rest, uid, s =>
    if k = uid then (uid, s) :: rest else (k, v) :: setSession rest uid s

def delSession (m : List (Nat × Session)) (uid : Nat) : List (Nat × Session) :=
  m.filter (fun p => ¬ p.1 = uid)

/-- An inbound asset update: a document, or a photo (its size variants).
An empty size list makes `elif image_info:` falsy, which is bot.py's
"neither file nor image" path. -/
inductive UploadEvent
  | file (fileId fileName caption : String)
  | photo (sizes : List PhotoSize) (caption : String)
deriving DecidableEq, Repr

/-- `max(image_info, key=lambda photo: photo.width * photo.height)`:
first maximum wins, as with Python `max`. -/
def largestPhoto : List PhotoSize → Option PhotoSize
  | [] => none
  | p :: ps =>
    some (ps.foldl
      (fun best q =>
        if best.width * best.height < q.width * q.height then q else best) p)

/-- Success/failure of the external calls inside the commit `try` block.
`insertOk`: `collection.insert_one` (bot.py:160); `replyOk`: the success
reply (bot.py:161); `sendOk`: the search-group preview send
(bot.py:183 or bot.py:193). -/
structure Env where
  insertOk : Bool
  replyOk : Bool
  sendOk : Bool
deriving DecidableEq, Repr

def envAllOk : Env := ⟨true, true, true⟩

/-- The user-visible replies add_movie can produce, in program order. -/
inductive Reply
  | policyViolation
  | filesReceived (n : Nat)
  | imageReceived
  | addSuccess (name : String)
  | commitFailed
  | uploadBoth
deriving DecidableEq, Repr

/-- The per-event session mutation of bot.py:113-144 (before the commit
check). A file is cleaned and appended; a photo's largest variant
overwrites the poster; the caption field follows
`caption or session.get('caption', cleaned_name)` (file branch) and
`caption or session.get('caption')` (photo branch); an empty photo list
leaves the session untouched. -/
def sessionAfterEvent (ev : UploadEvent) (s : Session) : Session :=
  match ev with
  | .file fid fname cap =>
    let cleaned := normalizeFilename fname
    { files := s.files ++ [⟨fid, cleaned⟩]
      image := s.image
      caption := some (if cap ≠ "" then some cap else
        match s.caption with
        | none => some cleaned
        | some v => v) }
  | .photo sizes cap =>
    match largestPhoto sizes with
    | some p =>
      { files := s.files
        image := some ⟨p.file_id, p.width, p.height⟩
        caption := some (if cap ≠ "" then some cap else s.caption.getD none) }
    | none => s

/-- The reply issued by the branch taken at bot.py:113-144. -/
def branchReplies (ev : UploadEvent) (s : Session) : List Reply :=
  match ev with
  | .file _ _ _ => [.filesReceived (s.files.length + 1)]
  | .photo sizes _ =>
    match largestPhoto sizes with
    | some _ => [.imageReceived]
    | none => []

/-- Did the update carry neither a document nor a (non-empty) photo list
(`if not (file_info or image_info)`, bot.py:206)? -/
def isNeitherEvent (ev : UploadEvent) : Bool :=
  match ev with
  | .file _ _ _ => false
  | .photo sizes _ => sizes.isEmpty

/-- bot.py:147-207: the commit check and `try` block, applied to the
mutated session `s`, plus the trailing "upload both" reply. Entry insert
happens only in the branch where `s` holds at least one file and an
image. On an insert failure, or on a failure of an unprotected send
after the insert, the `except` at bot.py:201 is reached before
`del upload_sessions[user_id]`, so the session is written back. -/
def commitPhase (env : Env) (uid : Nat) (st : BotState) (s : Session)
    (rs : List Reply) (neither : Bool) : BotState × List Reply :=
  let tail : List Reply := if neither then [.uploadBoth] else []
  match s.files, s.image with
  | f0 :: _, some img =>
    let entry : MovieEntry := ⟨st.nextId, f0.file_name, s.files, some img⟩
    let stId : BotState := { st with nextId := st.nextId + 1 }
    if env.insertOk then
      let stIns : BotState := { stId with store := stId.store ++ [entry] }
      if env.replyOk then
        if img.file_id ≠ "" then
          -- send_photo branch: its failure is caught at bot.py:190-191
          ({ stIns with sessions := delSession stIns.sessions uid },
           rs ++ [.addSuccess f0.file_name] ++ tail)
        else if env.sendOk then
          ({ stIns with sessions := delSession stIns.sessions uid },
           rs ++ [.addSuccess f0.file_name] ++ tail)
        else
          -- unprotected send_message raised after the success reply
          ({ stIns with sessions := setSession stIns.sessions uid s },
           rs ++ [.addSuccess f0.file_name, .commitFailed] ++ tail)
      else
        -- the success reply raised: entry stored, session kept
        ({ stIns with sessions := setSession stIns.sessions uid s },
         rs ++ [.commitFailed] ++ tail)
    else
      -- insert_one raised: nothing stored, session kept
      ({ stId with sessions := setSession stId.sessions uid s },
       rs ++ [.commitFailed] ++ tail)
  | _, _ =>
    ({ st with sessions := setSession st.sessions uid s }, rs ++ tail)

/-- bot.add_movie (bot.py:97-207) for one inbound update. `inStorageGroup`
is the chat-id policy check at bot.py:100. -/
def add_movie (env : Env) (inStorageGroup : Bool) (uid : Nat)
    (ev : UploadEvent) (st : BotState) : BotState × List Reply :=
  if inStorageGroup then
    let s := (getSession st.sessions uid).getD freshSession
    commitPhase env uid st (sessionAfterEvent ev s)
      (branchReplies ev s) (isNeitherEvent ev)
  else
    (st, [.policyViolation])

/-- One inbound update together with its delivery context. -/
structure Arrival where
  env : Env
  inStorageGroup : Bool
  uid : Nat
  ev : UploadEvent
deriving DecidableEq, Repr

def runEvents (evs : List Arrival) (st : BotState) : BotState :=
  evs.foldl (fun st a => (add_movie a.env a.inStorageGroup a.uid a.ev st).1) st

/-- bot.py's handlers receive each update at some wall-clock time but
never read a clock for session management: `upload_sessions` entries
carry no `createdAt`/`timeout` and are never aged out. The `now`
argument is therefore ignored, mirroring bot.py:95-107. -/
def add_movie_at (_now : Nat) (env : Env) (inStorageGroup : Bool)
    (uid : Nat) (ev : UploadEvent) (st : BotState) : BotState × List Reply :=
  add_movie env inStorageGroup uid ev st

/-! ### Search and suggestions (bot.py:209-281, 380-427)

bot.search_movie compiles `re.escape(movie_name)` case-insensitively and
takes up to 10 store matches; an escaped pattern searched unanchored is
exactly a case-insensitive substring test. On an empty direct match set
it calls bot.suggest_movies, which rejects queries shorter than 3
characters before touching the store, and otherwise runs the store query
`{"$regex": f".*{movie_name[:3]}.*", "$options": "i"}` — the three
characters are interpolated unescaped, so they are read as pattern
syntax by the store's regex engine. -/

/-- Python `re` metacharacters: a fragment containing none of these is a
literal, and `.*frag.*` searched unanchored then matches exactly the
names containing `frag`. -/
def reMetachars : List Char :=
  ['.', '^', '$', '*', '+', '?', '(', ')', '[', ']', '{', '}', '|', '\\']

/-- Group-parenthesis balance scan: `true` when a `)` closes nothing or
a `(` is left open, which makes the pattern fail to compile. Only
meaningful for fragments free of escape and class characters. -/
def parensUnbalanced (depth : Nat) : List Char → Bool
  | [] => ¬ depth = 0
  | '(' :: r => parensUnbalanced (depth + 1) r
  | ')' :: r =>
    match depth with
    | 0 => true
    | d + 1 => parensUnbalanced d r
  | _ :: r => parensUnbalanced depth r

/-- How the store's regex engine reads the interpolated fragment. -/
inductive FragClass
  | literalSafe
  | invalidPattern
  | unmodelled
deriving DecidableEq, Repr

/-- Classify the fragment `movie_name[:3]` spliced into the suggestion
pattern. Fragments with no metacharacter are literals; fragments whose
group parentheses are unbalanced (and which contain no escape or class
character that could reinterpret them) do not compile; anything else is
left outside this model. -/
def classifyFrag (frag : String) : FragClass :=
  if frag.data.all (fun c => !(reMetachars.contains c)) then
    .literalSafe
  else if frag.data.all (fun c => !(['\\', '[', ']', '{', '}'].contains c))
      && parensUnbalanced 0 frag.data then
    .invalidPattern
  else
    .unmodelled

/-- Model of the document store evaluating
`find({"name": {"$regex": ".*" + frag + ".*", "$options": "i"}}).limit(limit)`:
for a literal fragment this is the case-insensitive substring filter,
for an uncompilable fragment the query raises (`.error`), and other
fragments are outside the model (`none`). -/
def storeRegexFind (store : List MovieEntry) (frag : String) (limit : Nat) :
    Option (Except Unit (List MovieEntry)) :=
  match classifyFrag frag with
  | .literalSafe =>
    some (.ok ((store.filter (fun e => containsCI e.name frag)).take limit))
  | .invalidPattern => some (.error ())
  | .unmodelled => none

/-- Outcome of bot.suggest_movies (bot.py:380-427). `raised` records that
the store query raised a PyMongoError whose handler at bot.py:414 names
the unbound `pymongo`, so evaluating the except clause raises NameError
and the exception escapes suggest_movies (the generic handler at
bot.py:421 is never consulted). -/
inductive SuggestOutcome
  | tooShort
  | suggestions (xs : List MovieEntry)
  | noneFound
  | raised
deriving DecidableEq, Repr

/-- bot.suggest_movies: length check before any store access, then the
3-character regex query capped at 5, with the non-empty / empty result
messages. `none` = the store query fell outside the regex model. -/
def suggest_movies (store : List MovieEntry) (movieName : String) :
    Option SuggestOutcome :=
  if movieName.length < 3 then
    some .tooShort
  else
    match storeRegexFind store (movieName.take 3) 5 with
    | some (.ok xs) => some (if xs.isEmpty then .noneFound else .suggestions xs)
    | some (.error _) => some .raised
    | none => none

/-- Outcome of bot.search_movie (bot.py:209-281). -/
inductive SearchOutcome
  | wrongChat
  | emptyPrompt
  | direct (xs : List MovieEntry)
  | fromSuggest (s : SuggestOutcome)
  | genericError
deriving DecidableEq, Repr

/-- bot.search_movie: chat policy check, `strip`, empty-query prompt,
direct case-insensitive substring match capped at 10, suggestion
fallback; any exception escaping the `try` (bot.py:277) — including the
NameError that escapes suggest_movies — yields the generic error reply. -/
def search_movie (inSearchGroup : Bool) (store : List MovieEntry)
    (text : String) : Option SearchOutcome :=
  if inSearchGroup then
    let movieName := String.mk (stripPy text.data)
    if movieName = "" then
      some .emptyPrompt
    else
      let direct := (store.filter (fun e => containsCI e.name movieName)).take 10
      if direct.isEmpty then
        match suggest_movies store movieName with
        | some .raised => some .genericError
        | some s => some (.fromSuggest s)
        | none => none
      else
        some (.direct direct)
  else
    some .wrongChat

/-! ### The search-group sweep (movies_bot.py:172-221)

movies_bot.MovieBot.clear_search_group fetches the group's messages and
attempts to delete every one of them; each deletion has its own
`try/except` (movies_bot.py:198-204) that logs a failure and continues.
No age threshold is consulted anywhere: the records' send times are
never read (bot.py:85 declares `search_group_messages = []` but nothing
in src/ ever appends to or sweeps it). -/

/-- A deletable outbound message: its id and the time it was sent.
`sentAt` exists on every fetched message; the sweep never reads it. -/
structure TrackedMessage where
  message_id : Nat
  sentAt : Nat
deriving DecidableEq, Repr

/-- The deletion loop of clear_search_group: returns the ids whose
deletion was attempted (in order) and the ids actually deleted, given
which delete calls succeed. A failed delete is logged and the loop
continues with the remaining messages. -/
def clear_search_group (msgs : List TrackedMessage) (deleteOk : Nat → Bool) :
    List Nat × List Nat :=
  match msgs with
  | [] => ([], [])
  | m :: rest =>
    let (att, del) := clear_search_group rest deleteOk
    (m.message_id :: att,
     if deleteOk m.message_id then m.message_id :: del else del)

/-! ### Rate limiter (spec §4.2) -/

/-- Modelled from the spec: src/ contains no rate limiter — §4.2 of the
spec describes one (sliding-window admission control per user) that is
absent from bot.py and movies_bot.py. Following the spec's words: "On
each call: evict entries in the user's window older than `timeWindow`
from the front; if remaining count `< maxRequests`, admit (push current
timestamp, return true); else reject (return false) without modifying
state." -/
def canProceed (maxRequests timeWindow now : Nat) (w : List Nat) :
    Bool × List Nat :=
  let w2 := w.dropWhile (fun t => timeWindow < now - t)
  if w2.length < maxRequests then (true, w2 ++ [now]) else (false, w2)

/-- Run `canProceed` over a sequence of call times, collecting the
admission verdicts and the final window. -/
def processCalls (maxRequests timeWindow : Nat) :
    List Nat → List Nat → List Bool × List Nat
  | [], w => ([], w)
  | t :: ts, w =>
    let (b, w2) := canProceed maxRequests timeWindow t w
    let (bs, w3) := processCalls maxRequests timeWindow ts w2
    (b :: bs, w3)

/-! ### Session-map lemmas -/

theorem getSession_set_self (m : List (Nat × Session)) (uid : Nat) (s : Session) :
    getSession (setSession m uid s) uid = some s := by
  induction m with
  | nil => simp [setSession, getSession]
  | cons p rest ih =>
    obtain ⟨k, v⟩ := p
    by_cases h : k = uid
    · simp [setSession, h, getSession]
    · simp [setSession, h, getSession, ih]

theorem getSession_del_self (m : List (Nat × Session)) (uid : Nat) :
    getSession (delSession m uid) uid = none := by
  induction m with
  | nil => simp [delSession, getSession]
  | cons p rest ih =>
    obtain ⟨k, v⟩ := p
    by_cases h : k = uid
    · simpa [delSession, h, getSession] using ih
    · simpa [delSession, h, getSession] using ih

/-! ### Store-shape lemmas for the commit logic -/

/-- The store after a commitPhase call: unchanged, or grown by exactly
the entry built from the (necessarily complete) session. -/
theorem commitPhase_store_cases (env : Env) (uid : Nat) (st : BotState)
    (s : Session) (rs : List Reply) (nei : Bool) :
    (commitPhase env uid st s rs nei).1.store = st.store ∨
    (∃ f0 rest img, s.files = f0 :: rest ∧ s.image = some img ∧
      (commitPhase env uid st s rs nei).1.store =
        st.store ++ [⟨st.nextId, f0.file_name, s.files, some img⟩]) := by
  unfold commitPhase
  rcases env with ⟨ib, rb, sb⟩
  rcases hf : s.files with _ | ⟨f0, rest⟩ <;>
    rcases hi : s.image with _ | img <;>
      simp only [hf, hi]
  · exact Or.inl trivial
  · exact Or.inl trivial
  · exact Or.inl trivial
  · cases ib
    · simp
    · cases rb
      · exact Or.inr ⟨f0, rest, img, rfl, rfl, rfl⟩
      · refine Or.inr ⟨f0, rest, img, rfl, rfl, ?_⟩
        by_cases hfid : img.file_id ≠ ""
        · rw [if_pos hfid]; rfl
        · rw [if_neg hfid]
          cases sb
          · rfl
          · rfl

/-- If commitPhase changed the store, the session it was given held at
least one file and an image. -/
theorem commitPhase_store_changed (env : Env) (uid : Nat) (st : BotState)
    (s : Session) (rs : List Reply) (nei : Bool)
    (h : (commitPhase env uid st s rs nei).1.store ≠ st.store) :
    s.files ≠ [] ∧ s.image.isSome := by
  rcases commitPhase_store_cases env uid st s rs nei with heq | ⟨f0, rest, img, hf, hi, _⟩
  · exact absurd heq h
  · exact ⟨by simp [hf], by simp [hi]⟩

/-- Every entry of the store after one add_movie call is an old entry or
has non-empty documents and a present image. -/
theorem add_movie_goodStore (env : Env) (g : Bool) (uid : Nat)
    (ev : UploadEvent) (st : BotState)
    (h : ∀ e ∈ st.store, e.documents ≠ [] ∧ e.image.isSome) :
    ∀ e ∈ (add_movie env g uid ev st).1.store,
      e.documents ≠ [] ∧ e.image.isSome := by
  intro e he
  cases g
  · exact h e he
  · have hstep : add_movie env true uid ev st =
        commitPhase env uid st
          (sessionAfterEvent ev ((getSession st.sessions uid).getD freshSession))
          (branchReplies ev ((getSession st.sessions uid).getD freshSession))
          (isNeitherEvent ev) := rfl
    rw [hstep] at he
    rcases commitPhase_store_cases env uid st
        (sessionAfterEvent ev ((getSession st.sessions uid).getD freshSession))
        (branchReplies ev ((getSession st.sessions uid).getD freshSession))
        (isNeitherEvent ev) with heq | ⟨f0, rest, img, hf, hi, heq⟩ <;>
      rw [heq] at he
    · exact h e he
    · rcases List.mem_append.mp he with hold | hnew
      · exact h e hold
      · rcases List.mem_singleton.mp hnew with rfl
        exact ⟨by simp [hf], by simp⟩

theorem runEvents_goodStore (evs : List Arrival) (st : BotState)
    (h : ∀ e ∈ st.store, e.documents ≠ [] ∧ e.image.isSome) :
    ∀ e ∈ (runEvents evs st).store, e.documents ≠ [] ∧ e.image.isSome := by
  induction evs generalizing st with
  | nil => exact h
  | cons a rest ih =>
    exact ih (add_movie a.env a.inStorageGroup a.uid a.ev st).1
      (add_movie_goodStore a.env a.inStorageGroup a.uid a.ev st h)

/-- The commit branch when the insert raises: ids advance, the mutated
session is written back, the store is untouched, and the failure reply
is issued. -/
theorem commitPhase_insertFail (env : Env) (uid : Nat) (st : BotState)
    (s : Session) (rs : List Reply) (nei : Bool)
    (f0 : FileDoc) (rest : List FileDoc) (img : ImageInfo)
    (hf : s.files = f0 :: rest) (hi : s.image = some img)
    (hins : env.insertOk = false) :
    commitPhase env uid st s rs nei =
      ({ sessions := setSession st.sessions uid s, store := st.store,
         nextId := st.nextId + 1 },
       rs ++ [.commitFailed] ++ (if nei then [.uploadBoth] else [])) := by
  rcases env with ⟨ib, rb, sb⟩
  simp only at hins
  subst hins
  unfold commitPhase
  simp only [hf, hi]
  rfl

/-! ### Claim theorems -/

/-- C1: commit atomicity. Over every sequence of upload arrivals from
the initial state, every CatalogEntry in the store has a non-empty
documents list and a present image; moreover a single add_movie step can
change the store only when the mutated session of the acting user holds
at least one file and an image. -/
theorem C1_commit_atomicity :
    (∀ evs : List Arrival, ∀ e ∈ (runEvents evs initState).store,
        e.documents ≠ [] ∧ e.image.isSome) ∧
    (∀ (env : Env) (g : Bool) (uid : Nat) (ev : UploadEvent) (st : BotState),
        (add_movie env g uid ev st).1.store ≠ st.store →
        (sessionAfterEvent ev ((getSession st.sessions uid).getD freshSession)).files ≠ [] ∧
        ((sessionAfterEvent ev ((getSession st.sessions uid).getD freshSession)).image).isSome) := by
  constructor
  · intro evs e he
    exact runEvents_goodStore evs initState (by intro e h; cases h) e he
  · intro env g uid ev st hchange
    cases g
    · exact absurd rfl hchange
    · have hstep : add_movie env true uid ev st =
          commitPhase env uid st
            (sessionAfterEvent ev ((getSession st.sessions uid).getD freshSession))
            (branchReplies ev ((getSession st.sessions uid).getD freshSession))
            (isNeitherEvent ev) := rfl
      rw [hstep] at hchange
      exact commitPhase_store_changed env uid st _ _ _ hchange

/-- C2: at-least-once commit retry. If the document-store insert fails
during commit (the post-event session is complete and `insertOk` is
false), the store is unchanged, the user's session survives with its
files and image, and the transient failure notice is among the replies. -/
theorem C2_insert_failure_preserves_session
    (env : Env) (uid : Nat) (ev : UploadEvent) (st : BotState)
    (hins : env.insertOk = false)
    (hf : (sessionAfterEvent ev ((getSession st.sessions uid).getD freshSession)).files ≠ [])
    (hi : ((sessionAfterEvent ev ((getSession st.sessions uid).getD freshSession)).image).isSome) :
    (add_movie env true uid ev st).1.store = st.store ∧
    getSession (add_movie env true uid ev st).1.sessions uid =
      some (sessionAfterEvent ev ((getSession st.sessions uid).getD freshSession)) ∧
    Reply.commitFailed ∈ (add_movie env true uid ev st).2 := by
  obtain ⟨f0, rest, hf'⟩ : ∃ f0 rest,
      (sessionAfterEvent ev ((getSession st.sessions uid).getD freshSession)).files
        = f0 :: rest := by
    cases hfiles : (sessionAfterEvent ev ((getSession st.sessions uid).getD freshSession)).files
    · exact absurd hfiles hf
    · exact ⟨_, _, rfl⟩
  obtain ⟨img, hi'⟩ := Option.isSome_iff_exists.mp hi
  have hstep : add_movie env true uid ev st =
      commitPhase env uid st
        (sessionAfterEvent ev ((getSession st.sessions uid).getD freshSession))
        (branchReplies ev ((getSession st.sessions uid).getD freshSession))
        (isNeitherEvent ev) := rfl
  rw [hstep, commitPhase_insertFail env uid st _ _ _ f0 rest img hf' hi' hins]
  refine ⟨rfl, getSession_set_self st.sessions uid _, ?_⟩
  simp [List.mem_append]

/-- C2 witness: a user whose session already holds one file sends a
photo while the store insert fails; the store stays empty, the completed
session survives, and the failure notice is issued. -/
theorem C2_insert_failure_witness :
    (add_movie ⟨false, true, true⟩ true 0 (.photo [⟨"i", 1, 1⟩] "")
        ⟨[(0, ⟨[⟨"f", "A"⟩], none, none⟩)], [], 0⟩).1.store =
      (⟨[(0, ⟨[⟨"f", "A"⟩], none, none⟩)], [], 0⟩ : BotState).store ∧
    getSession (add_movie ⟨false, true, true⟩ true 0 (.photo [⟨"i", 1, 1⟩] "")
        ⟨[(0, ⟨[⟨"f", "A"⟩], none, none⟩)], [], 0⟩).1.sessions 0 =
      some (sessionAfterEvent (.photo [⟨"i", 1, 1⟩] "")
        ((getSession (⟨[(0, ⟨[⟨"f", "A"⟩], none, none⟩)], [], 0⟩ : BotState).sessions 0).getD
          freshSession)) ∧
    Reply.commitFailed ∈ (add_movie ⟨false, true, true⟩ true 0 (.photo [⟨"i", 1, 1⟩] "")
        ⟨[(0, ⟨[⟨"f", "A"⟩], none, none⟩)], [], 0⟩).2 :=
  C2_insert_failure_preserves_session ⟨false, true, true⟩ 0 (.photo [⟨"i", 1, 1⟩] "")
    ⟨[(0, ⟨[⟨"f", "A"⟩], none, none⟩)], [], 0⟩ rfl (by decide) (by decide)

/-- C3 counterexample: the normalizer is not idempotent on every raw
filename. On "H.mkvD" the first pass deletes the ".mkv" tag, splicing
"H" and "D" into the fresh tag "HD", which a second pass then deletes:
normalize("H.mkvD") = "HD" but normalize("HD") = "". -/
theorem C3_idempotence_counterexample :
    ¬ (normalizeFilename (normalizeFilename "H.mkvD") =
        normalizeFilename "H.mkvD") := by decide

/-- C3 amended: normalization is idempotent on the spec's representative
noisy filename, but not on every raw filename — deleting one release tag
can splice its surrounding characters into a new tag that only a second
pass removes, as "H.mkvD" → "HD" → "" shows. -/
theorem C3_idempotence_amended :
    normalizeFilename (normalizeFilename "Movie.Name.2021.1080p.BluRay.x264-GROUP.mkv") =
      normalizeFilename "Movie.Name.2021.1080p.BluRay.x264-GROUP.mkv" ∧
    normalizeFilename "H.mkvD" = "HD" ∧
    normalizeFilename "HD" = "" := by decide

/-- C4 counterexample: uploading "Movie.Name.2021.1080p.BluRay.x264-GROUP.mkv"
and then a photo does not produce an entry named "Movie Name (2021)":
the normalizer deletes tags in place without rewriting dots or adding
parentheses, so the stored name is "Movie.Name.2021...-GROUP". -/
theorem C4_end_to_end_counterexample :
    (runEvents
        [⟨envAllOk, true, 7, .file "fid1" "Movie.Name.2021.1080p.BluRay.x264-GROUP.mkv" ""⟩,
         ⟨envAllOk, true, 7, .photo [⟨"img", 4, 5⟩] ""⟩]
        initState).store.map (fun e => e.name) ≠ ["Movie Name (2021)"] := by decide

/-- C4 amended: uploading "Movie.Name.2021.1080p.BluRay.x264-GROUP.mkv"
and then a photo commits exactly one CatalogEntry whose name is
"Movie.Name.2021...-GROUP" (release tokens deleted in place; separators
kept, no parentheses added, language omitted), with one document and the
image present, and destroys the session. -/
theorem C4_end_to_end_amended :
    runEvents
        [⟨envAllOk, true, 7, .file "fid1" "Movie.Name.2021.1080p.BluRay.x264-GROUP.mkv" ""⟩,
         ⟨envAllOk, true, 7, .photo [⟨"img", 4, 5⟩] ""⟩]
        initState =
      ⟨[], [⟨0, "Movie.Name.2021...-GROUP",
             [⟨"fid1", "Movie.Name.2021...-GROUP"⟩], some ⟨"img", 4, 5⟩⟩], 1⟩ := by decide

/-- C5 counterexample: a query of length ≥ 3 with empty direct match
whose first three characters are "(((" does not get suggestions computed
by a case-insensitive substring filter on those three characters — the
store holds a name that the literal filter would return, but the lookup
raises and search_movie answers with the generic error instead. -/
theorem C5_fallback_counterexample :
    (([⟨1, "x(((y", [⟨"d", "x"⟩], some ⟨"i", 1, 1⟩⟩] : List MovieEntry).filter
        (fun e => containsCI e.name "(((Q")).take 10 = [] ∧
    search_movie true [⟨1, "x(((y", [⟨"d", "x"⟩], some ⟨"i", 1, 1⟩⟩] "(((Q" ≠
      some (.fromSuggest (.suggestions
        ((([⟨1, "x(((y", [⟨"d", "x"⟩], some ⟨"i", 1, 1⟩⟩] : List MovieEntry).filter
            (fun e => containsCI e.name "(((")).take 5))) := by decide

/-- C5 amended: for queries of length ≥ 3 whose first three characters
contain no regex metacharacter, the suggestion engine returns up to 5
entries computed by the case-insensitive substring filter on those three
characters (with the distinct empty-result message when none match);
queries whose first three characters form an uncompilable pattern raise
instead. For queries shorter than 3 the engine returns the "query too
short" signal without consulting the store. -/
theorem C5_fallback_amended :
    (∀ (store : List MovieEntry) (q : String),
      3 ≤ q.length →
      (q.take 3).data.all (fun c => !(reMetachars.contains c)) = true →
      suggest_movies store q =
        some (if ((store.filter (fun e => containsCI e.name (q.take 3))).take 5).isEmpty
              then .noneFound
              else .suggestions ((store.filter (fun e => containsCI e.name (q.take 3))).take 5))) ∧
    (∀ (store : List MovieEntry) (q : String),
      q.length < 3 → suggest_movies store q = some .tooShort) := by
  constructor
  · intro store q hlen hlit
    unfold suggest_movies
    rw [if_neg (by omega)]
    unfold storeRegexFind classifyFrag
    rw [if_pos hlit]
  · intro store q hlen
    unfold suggest_movies
    rw [if_pos hlen]

/-- C8 counterexample: the sweep deletes a message sent one hour ago
(sentAt 356400 at now 360000), although the claim says every record
younger than 24 hours is retained. -/
theorem C8_retention_counterexample :
    clear_search_group [⟨5, 356400⟩] (fun _ => true) = ([5], [5]) ∧
    (360000 : Nat) - 356400 ≤ 24 * 3600 := by decide

/-- C8 amended: on each pass the sweep attempts deletion of every
message in the search group regardless of age — no 24-hour threshold is
consulted and sentAt is never read — and a deletion failure on one
record does not abort the rest: the deleted records are exactly those
whose delete call succeeds. -/
theorem C8_sweep_amended :
    ∀ (msgs : List TrackedMessage) (deleteOk : Nat → Bool),
      (clear_search_group msgs deleteOk).1 = msgs.map (fun m => m.message_id) ∧
      (clear_search_group msgs deleteOk).2 =
        (msgs.filter (fun m => deleteOk m.message_id)).map (fun m => m.message_id) := by
  intro msgs deleteOk
  induction msgs with
  | nil => exact ⟨rfl, rfl⟩
  | cons m rest ih =>
    refine ⟨?_, ?_⟩
    · simp only [clear_search_group, List.map_cons]
      rw [ih.1]
    · simp only [clear_search_group, List.filter_cons]
      cases h : deleteOk m.message_id
      · simpa [h] using ih.2
      · simpa [h] using ih.2

/-- C9: regex injection in the suggestion lookup. For the query "(((a"
(length ≥ 3, no direct match) the three leading characters are spliced
unescaped into the pattern; a literal substring filter on "(((" would
return the stored entry "a(((b", but the pattern does not compile, the
lookup raises past suggest_movies' broken PyMongoError handler, and
search_movie answers with its generic error. -/
theorem C9_regex_injection :
    suggest_movies [⟨0, "a(((b", [⟨"d", "x"⟩], some ⟨"i", 1, 1⟩⟩] "(((a" =
      some .raised ∧
    search_movie true [⟨0, "a(((b", [⟨"d", "x"⟩], some ⟨"i", 1, 1⟩⟩] "(((a" =
      some .genericError ∧
    (([⟨0, "a(((b", [⟨"d", "x"⟩], some ⟨"i", 1, 1⟩⟩] : List MovieEntry).filter
        (fun e => containsCI e.name "(((")).take 5 =
      [⟨0, "a(((b", [⟨"d", "x"⟩], some ⟨"i", 1, 1⟩⟩] := by decide

/-! ### Rate-limiter lemmas (spec §4.2 model) -/

theorem dropWhile_all_false {α : Type} (p : α → Bool) (l : List α)
    (h : ∀ x ∈ l, p x = false) : l.dropWhile p = l := by
  cases l with
  | nil => rfl
  | cons y ys => simp [List.dropWhile_cons, h y (List.mem_cons_self y ys)]

theorem dropWhile_all_true {α : Type} (p : α → Bool) (l : List α)
    (h : ∀ x ∈ l, p x = true) : l.dropWhile p = [] := by
  induction l with
  | nil => rfl
  | cons y ys ih =>
    simp only [List.dropWhile_cons, h y (List.mem_cons_self y ys), if_true]
    exact ih (fun x hx => h x (List.mem_cons_of_mem y hx))

/-- While every recorded timestamp and every call time lies inside the
window [t0, t0 + W], no eviction fires and every call below the cap is
admitted and recorded. -/
theorem processCalls_within_window (m W t0 : Nat) (ts pre : List Nat)
    (hlen : pre.length + ts.length ≤ m)
    (hpre : ∀ x ∈ pre, t0 ≤ x)
    (hts : ∀ t ∈ ts, t0 ≤ t ∧ t ≤ t0 + W) :
    processCalls m W ts pre = (List.replicate ts.length true, pre ++ ts) := by
  induction ts generalizing pre with
  | nil => simp [processCalls]
  | cons t rest ih =>
    have ht := hts t (List.mem_cons_self t rest)
    have hdrop : pre.dropWhile (fun x => W < t - x) = pre := by
      refine dropWhile_all_false _ pre (fun x hx => ?_)
      have hx0 := hpre x hx
      simp only [decide_eq_false_iff_not]
      omega
    have hcan : canProceed m W t pre = (true, pre ++ [t]) := by
      unfold canProceed
      rw [hdrop, if_pos (by simp at hlen ⊢; omega)]
    have hrec := ih (pre ++ [t])
      (by simp at hlen ⊢; omega)
      (by
        intro x hx
        rcases List.mem_append.mp hx with hx | hx
        · exact hpre x hx
        · rcases List.mem_singleton.mp hx with rfl
          exact ht.1)
      (fun x hx => hts x (List.mem_cons_of_mem t hx))
    show (let r := canProceed m W t pre
          let r2 := processCalls m W rest r.2
          (r.1 :: r2.1, r2.2)) = _
    rw [hcan]
    simp only [hrec, List.replicate_succ, List.append_assoc,
      List.singleton_append, List.length_cons]

/-- C6: rate limiter boundary (spec-modelled — src/ has no rate
limiter). With a positive cap m, all of m calls inside one window
[t0, t0 + W] are admitted; one more call inside the window is rejected
without modifying the recorded window; and a call made after the window
has fully elapsed past every recorded timestamp is admitted again. -/
theorem C6_rate_limiter_boundary (m W t0 : Nat) (ts : List Nat)
    (textra T : Nat)
    (hm : 0 < m)
    (hcount : ts.length = m)
    (hts : ∀ t ∈ ts, t0 ≤ t ∧ t ≤ t0 + W)
    (hextra : t0 ≤ textra ∧ textra ≤ t0 + W)
    (hT : ∀ t ∈ ts, t + W < T) :
    (processCalls m W ts []).1 = List.replicate m true ∧
    (processCalls m W ts []).2 = ts ∧
    canProceed m W textra ts = (false, ts) ∧
    canProceed m W T ts = (true, [T]) := by
  have hmain := processCalls_within_window m W t0 ts []
    (by simp [hcount]) (by intro x hx; cases hx) hts
  refine ⟨by rw [hmain, hcount], by rw [hmain]; rfl, ?_, ?_⟩
  · have hdrop : ts.dropWhile (fun x => W < textra - x) = ts := by
      refine dropWhile_all_false _ ts (fun x hx => ?_)
      have := hts x hx
      simp only [decide_eq_false_iff_not]
      omega
    unfold canProceed
    rw [hdrop, if_neg (by omega)]
  · have hdrop : ts.dropWhile (fun x => W < T - x) = [] := by
      refine dropWhile_all_true _ ts (fun x hx => ?_)
      have := hT x hx
      simp only [decide_eq_true_eq]
      omega
    unfold canProceed
    rw [hdrop, if_pos (by simpa using hm)]
    rfl

/-- C6 witness: with the spec's default policy of 5 requests per
60-second window, five calls at times 100..140 are all admitted, a sixth
at 150 is rejected leaving the window unchanged, and a call at 300
(more than 60s past every recorded timestamp) is admitted afresh. -/
theorem C6_rate_limiter_witness :
    (processCalls 5 60 [100, 110, 120, 130, 140] []).1 =
      List.replicate 5 true ∧
    (processCalls 5 60 [100, 110, 120, 130, 140] []).2 =
      [100, 110, 120, 130, 140] ∧
    canProceed 5 60 150 [100, 110, 120, 130, 140] =
      (false, [100, 110, 120, 130, 140]) ∧
    canProceed 5 60 300 [100, 110, 120, 130, 140] = (true, [300]) :=
  C6_rate_limiter_boundary 5 60 100 [100, 110, 120, 130, 140] 150 300
    (by decide) (by decide) (by decide) (by decide) (by decide)

/-- C7 counterexample: a file event arriving 100000 seconds (well past
any 30-minute timeout) after a first file event does not start a fresh
session with exactly the new file — the old session survives and the new
file is appended to it, so the session holds both files. -/
theorem C7_expiry_counterexample :
    ¬ ((getSession (add_movie_at 100000 envAllOk true 7 (.file "f2" "BBBB" "")
          (add_movie_at 0 envAllOk true 7 (.file "f1" "AAAA" "") initState).1).1.sessions 7).map
        (fun s => s.files.map (fun f => f.file_id)) = some ["f2"]) := by decide

/-- C7 amended: upload sessions never expire. Whatever wall-clock times
two file events from one user arrive at, the second operates on the
preserved session: afterwards the session holds both cleaned files in
upload order, and the only reply is the normal file-received notice (no
error is surfaced). -/
theorem C7_no_expiry_amended :
    ∀ (t1 t2 uid : Nat) (fid1 n1 fid2 n2 : String),
      (add_movie_at t2 envAllOk true uid (.file fid2 n2 "")
          (add_movie_at t1 envAllOk true uid (.file fid1 n1 "") initState).1).1.sessions =
        [(uid, ⟨[⟨fid1, normalizeFilename n1⟩, ⟨fid2, normalizeFilename n2⟩], none,
                some (some (normalizeFilename n1))⟩)] ∧
      (add_movie_at t2 envAllOk true uid (.file fid2 n2 "")
          (add_movie_at t1 envAllOk true uid (.file fid1 n1 "") initState).1).2 =
        [.filesReceived 2] := by
  intro t1 t2 uid fid1 n1 fid2 n2
  constructor <;>
    simp [add_movie_at, add_movie, sessionAfterEvent, commitPhase,
      branchReplies, isNeitherEvent, getSession, setSession, freshSession,
      initState]

/-- The commit branch when the insert succeeds but the success reply
raises: the entry is stored, yet the except path keeps the session and
issues the failure notice. -/
theorem commitPhase_insertOk_replyFail (env : Env) (uid : Nat)
    (st : BotState) (s : Session) (rs : List Reply) (nei : Bool)
    (f0 : FileDoc) (rest : List FileDoc) (img : ImageInfo)
    (hf : s.files = f0 :: rest) (hi : s.image = some img)
    (hins : env.insertOk = true) (hrep : env.replyOk = false) :
    commitPhase env uid st s rs nei =
      ({ sessions := setSession st.sessions uid s,
         store := st.store ++ [⟨st.nextId, f0.file_name, s.files, some img⟩],
         nextId := st.nextId + 1 },
       rs ++ [.commitFailed] ++ (if nei then [.uploadBoth] else [])) := by
  rcases env with ⟨ib, rb, sb⟩
  simp only at hins hrep
  subst hins; subst hrep
  unfold commitPhase
  simp only [hf, hi]
  rfl

/-- The commit branch when insert, reply and send all succeed: the entry
is stored, the success reply is issued, and the session is destroyed
(also when the preview send fails, since that failure is caught — here
stated for a succeeding send, which covers both file_id branches). -/
theorem commitPhase_allOk (env : Env) (uid : Nat)
    (st : BotState) (s : Session) (rs : List Reply) (nei : Bool)
    (f0 : FileDoc) (rest : List FileDoc) (img : ImageInfo)
    (hf : s.files = f0 :: rest) (hi : s.image = some img)
    (hins : env.insertOk = true) (hrep : env.replyOk = true)
    (hsend : env.sendOk = true) :
    commitPhase env uid st s rs nei =
      ({ sessions := delSession st.sessions uid,
         store := st.store ++ [⟨st.nextId, f0.file_name, s.files, some img⟩],
         nextId := st.nextId + 1 },
       rs ++ [.addSuccess f0.file_name] ++ (if nei then [.uploadBoth] else [])) := by
  rcases env with ⟨ib, rb, sb⟩
  simp only at hins hrep hsend
  subst hins; subst hrep; subst hsend
  unfold commitPhase
  simp only [hf, hi]
  by_cases hfid : img.file_id ≠ ""
  · rw [if_pos hfid]
    simp only [if_true]
  · rw [if_neg hfid]
    simp only [if_true]

/-- C10 counterexample: when the insert succeeds and the search-group
notification send raises, the claim's consequence fails — the photo
preview send has its own except (bot.py:190-191), so the session IS
deleted and the user is told the add succeeded. -/
theorem C10_notification_counterexample :
    getSession (add_movie ⟨true, true, false⟩ true 0 (.photo [⟨"img", 1, 1⟩] "")
        (⟨[(0, ⟨[⟨"fid", "A"⟩], none, none⟩)], [], 0⟩ : BotState)).1.sessions 0 = none ∧
    Reply.addSuccess "A" ∈ (add_movie ⟨true, true, false⟩ true 0 (.photo [⟨"img", 1, 1⟩] "")
        (⟨[(0, ⟨[⟨"fid", "A"⟩], none, none⟩)], [], 0⟩ : BotState)).2 ∧
    ¬ (Reply.commitFailed ∈ (add_movie ⟨true, true, false⟩ true 0 (.photo [⟨"img", 1, 1⟩] "")
        (⟨[(0, ⟨[⟨"fid", "A"⟩], none, none⟩)], [], 0⟩ : BotState)).2) := by decide

/-- C10 amended: the duplicate-insert scenario is triggered by the
unprotected success reply (bot.py:161), not by the search-group
notification. If the insert succeeds and the success reply raises, the
entry is already in the store, the session survives and the user is told
the add failed; a later photo event from the same user then inserts a
second entry with a different id containing the same documents, after
which the session is destroyed. -/
theorem C10_success_reply_failure_amended
    (st : BotState) (uid : Nat) (f0 : FileDoc) (fs : List FileDoc)
    (cap : Option (Option String)) (p1 p2 : PhotoSize)
    (hsess : getSession st.sessions uid = some ⟨f0 :: fs, none, cap⟩) :
    (add_movie ⟨true, false, true⟩ true uid (.photo [p1] "") st).1.store =
      st.store ++ [⟨st.nextId, f0.file_name, f0 :: fs,
        some ⟨p1.file_id, p1.width, p1.height⟩⟩] ∧
    Reply.commitFailed ∈ (add_movie ⟨true, false, true⟩ true uid (.photo [p1] "") st).2 ∧
    getSession (add_movie ⟨true, false, true⟩ true uid (.photo [p1] "") st).1.sessions uid =
      some ⟨f0 :: fs, some ⟨p1.file_id, p1.width, p1.height⟩, some (cap.getD none)⟩ ∧
    (add_movie envAllOk true uid (.photo [p2] "")
        (add_movie ⟨true, false, true⟩ true uid (.photo [p1] "") st).1).1.store =
      st.store ++
        [⟨st.nextId, f0.file_name, f0 :: fs, some ⟨p1.file_id, p1.width, p1.height⟩⟩,
         ⟨st.nextId + 1, f0.file_name, f0 :: fs, some ⟨p2.file_id, p2.width, p2.height⟩⟩] ∧
    getSession (add_movie envAllOk true uid (.photo [p2] "")
        (add_movie ⟨true, false, true⟩ true uid (.photo [p1] "") st).1).1.sessions uid =
      none ∧
    st.nextId ≠ st.nextId + 1 := by
  have hsess' : (getSession st.sessions uid).getD freshSession =
      ⟨f0 :: fs, none, cap⟩ := by rw [hsess]; rfl
  have hstep1 : add_movie ⟨true, false, true⟩ true uid (.photo [p1] "") st =
      commitPhase ⟨true, false, true⟩ uid st
        (sessionAfterEvent (.photo [p1] "") ((getSession st.sessions uid).getD freshSession))
        (branchReplies (.photo [p1] "") ((getSession st.sessions uid).getD freshSession))
        (isNeitherEvent (.photo [p1] "")) := rfl
  have hafter1 : sessionAfterEvent (.photo [p1] "") (⟨f0 :: fs, none, cap⟩ : Session) =
      ⟨f0 :: fs, some ⟨p1.file_id, p1.width, p1.height⟩, some (cap.getD none)⟩ := by
    simp [sessionAfterEvent, largestPhoto]
  have h1 : add_movie ⟨true, false, true⟩ true uid (.photo [p1] "") st =
      ({ sessions := setSession st.sessions uid
           ⟨f0 :: fs, some ⟨p1.file_id, p1.width, p1.height⟩, some (cap.getD none)⟩,
         store := st.store ++ [⟨st.nextId, f0.file_name, f0 :: fs,
           some ⟨p1.file_id, p1.width, p1.height⟩⟩],
         nextId := st.nextId + 1 },
       [.imageReceived, .commitFailed]) := by
    rw [hstep1, hsess', hafter1,
      commitPhase_insertOk_replyFail ⟨true, false, true⟩ uid st _ _ _
        f0 fs ⟨p1.file_id, p1.width, p1.height⟩ rfl rfl rfl rfl]
    rfl
  have hstep2 : add_movie envAllOk true uid (.photo [p2] "")
      (add_movie ⟨true, false, true⟩ true uid (.photo [p1] "") st).1 =
      commitPhase envAllOk uid
        (add_movie ⟨true, false, true⟩ true uid (.photo [p1] "") st).1
        (sessionAfterEvent (.photo [p2] "")
          ((getSession (add_movie ⟨true, false, true⟩ true uid (.photo [p1] "") st).1.sessions
            uid).getD freshSession))
        (branchReplies (.photo [p2] "")
          ((getSession (add_movie ⟨true, false, true⟩ true uid (.photo [p1] "") st).1.sessions
            uid).getD freshSession))
        (isNeitherEvent (.photo [p2] "")) := rfl
  have hget1 : getSession (add_movie ⟨true, false, true⟩ true uid
      (.photo [p1] "") st).1.sessions uid =
      some ⟨f0 :: fs, some ⟨p1.file_id, p1.width, p1.height⟩, some (cap.getD none)⟩ := by
    rw [h1]
    exact getSession_set_self st.sessions uid _
  have hafter2 : sessionAfterEvent (.photo [p2] "")
      (⟨f0 :: fs, some ⟨p1.file_id, p1.width, p1.height⟩, some (cap.getD none)⟩ : Session) =
      ⟨f0 :: fs, some ⟨p2.file_id, p2.width, p2.height⟩, some (cap.getD none)⟩ := by
    simp [sessionAfterEvent, largestPhoto]
  have h2 : add_movie envAllOk true uid (.photo [p2] "")
      (add_movie ⟨true, false, true⟩ true uid (.photo [p1] "") st).1 =
      ({ sessions := delSession (add_movie ⟨true, false, true⟩ true uid
           (.photo [p1] "") st).1.sessions uid,
         store := (add_movie ⟨true, false, true⟩ true uid (.photo [p1] "") st).1.store ++
           [⟨(add_movie ⟨true, false, true⟩ true uid (.photo [p1] "") st).1.nextId,
             f0.file_name, f0 :: fs, some ⟨p2.file_id, p2.width, p2.height⟩⟩],
         nextId := (add_movie ⟨true, false, true⟩ true uid
           (.photo [p1] "") st).1.nextId + 1 },
       [.imageReceived, .addSuccess f0.file_name]) := by
    rw [hstep2, hget1]
    rw [show (some (⟨f0 :: fs, some ⟨p1.file_id, p1.width, p1.height⟩,
        some (cap.getD none)⟩ : Session)).getD freshSession =
        ⟨f0 :: fs, some ⟨p1.file_id, p1.width, p1.height⟩, some (cap.getD none)⟩ from rfl]
    rw [hafter2,
      commitPhase_allOk envAllOk uid _ _ _ _
        f0 fs ⟨p2.file_id, p2.width, p2.height⟩ rfl rfl rfl rfl rfl]
    rfl
  refine ⟨by rw [h1], by rw [h1]; simp, by rw [h1]; exact getSession_set_self _ _ _,
    ?_, ?_, by omega⟩
  · rw [h2, h1]
    simp
  · rw [h2, h1]
    exact getSession_del_self _ _

/-- C10 witness: a user with one pending file sends a photo while the
success reply fails (entry stored, session kept, failure notice), then a
second photo: a second entry with a fresh id and the same document list
is inserted and the session is destroyed. -/
theorem C10_success_reply_failure_witness :
    (add_movie ⟨true, false, true⟩ true 3 (.photo [⟨"i1", 1, 1⟩] "")
        (⟨[(3, ⟨[⟨"f", "N"⟩], none, none⟩)], [], 0⟩ : BotState)).1.store =
      (⟨[(3, ⟨[⟨"f", "N"⟩], none, none⟩)], [], 0⟩ : BotState).store ++
        [⟨(0 : Nat), (⟨"f", "N"⟩ : FileDoc).file_name, [⟨"f", "N"⟩], some ⟨"i1", 1, 1⟩⟩] ∧
    Reply.commitFailed ∈ (add_movie ⟨true, false, true⟩ true 3 (.photo [⟨"i1", 1, 1⟩] "")
        (⟨[(3, ⟨[⟨"f", "N"⟩], none, none⟩)], [], 0⟩ : BotState)).2 ∧
    getSession (add_movie ⟨true, false, true⟩ true 3 (.photo [⟨"i1", 1, 1⟩] "")
        (⟨[(3, ⟨[⟨"f", "N"⟩], none, none⟩)], [], 0⟩ : BotState)).1.sessions 3 =
      some ⟨[⟨"f", "N"⟩], some ⟨"i1", 1, 1⟩, some ((none : Option (Option String)).getD none)⟩ ∧
    (add_movie envAllOk true 3 (.photo [⟨"i2", 2, 2⟩] "")
        (add_movie ⟨true, false, true⟩ true 3 (.photo [⟨"i1", 1, 1⟩] "")
          (⟨[(3, ⟨[⟨"f", "N"⟩], none, none⟩)], [], 0⟩ : BotState)).1).1.store =
      (⟨[(3, ⟨[⟨"f", "N"⟩], none, none⟩)], [], 0⟩ : BotState).store ++
        [⟨(0 : Nat), (⟨"f", "N"⟩ : FileDoc).file_name, [⟨"f", "N"⟩], some ⟨"i1", 1, 1⟩⟩,
         ⟨(0 : Nat) + 1, (⟨"f", "N"⟩ : FileDoc).file_name, [⟨"f", "N"⟩], some ⟨"i2", 2, 2⟩⟩] ∧
    getSession (add_movie envAllOk true 3 (.photo [⟨"i2", 2, 2⟩] "")
        (add_movie ⟨true, false, true⟩ true 3 (.photo [⟨"i1", 1, 1⟩] "")
          (⟨[(3, ⟨[⟨"f", "N"⟩], none, none⟩)], [], 0⟩ : BotState)).1).1.sessions 3 = none ∧
    (0 : Nat) ≠ (0 : Nat) + 1 :=
  C10_success_reply_failure_amended
    (⟨[(3, ⟨[⟨"f", "N"⟩], none, none⟩)], [], 0⟩ : BotState) 3 ⟨"f", "N"⟩ []
    none ⟨"i1", 1, 1⟩ ⟨"i2", 2, 2⟩ (by decide)

end MovieBot
